import Mathlib

/-!
Shallow embedding of the resumable Google Drive bulk-download engine in
`src/download_drive_api.py` (the CORE of the repository per the spec).

Modelling conventions:
  * Python dicts holding JSON records become Lean structures; a JSON map
    becomes an association list `List (String × _)` with Python's
    insertion-order update semantics (`assocSet`).
  * The filesystem at the single output path of one download attempt is an
    `Option Nat` (absent, or present with that size in bytes).
  * The network and OS are an explicit environment value (`DLEnv`,
    `RequestResult`): each constructor records what the outside world did
    on this attempt (HTTP status and bytes streamed, a timeout, an
    exception carrying a message).
  * A Python function that can raise past its boundary returns
    `Except String _` (the `error` carries `str(e)`).
  * `str.lower` / `strip` are modelled on the ASCII characters the code
    actually manipulates ("Rate limited", quotes, spaces, tabs, newlines).
-/

namespace DriveFetch

/-! ## Generic string helpers mirroring the Python operations used -/

/-- Model of `a.startswith(b)` on exploded strings: `startsWithList pat s`
is true when `pat` is an initial segment of `s`. -/
def startsWithList : List Char → List Char → Bool
  | [], _ => true
  | _ :: _, [] => false
  | a :: as, b :: bs => a == b && startsWithList as bs

/-- True when `needle` occurs contiguously inside `hay` (Python `in`). -/
def containsList (needle : List Char) : List Char → Bool
  | [] => startsWithList needle []
  | b :: bs => startsWithList needle (b :: bs) || containsList needle bs

/-- Python `needle in hay` on strings. -/
def containsSub (needle hay : String) : Bool :=
  containsList needle.data hay.data

/-- Python `str.lower` (ASCII, which covers every string the code lowers). -/
def pyLower (s : String) : String :=
  String.mk (s.data.map Char.toLower)

/-- Python slicing `s[:n]` (by characters, as Python slices strings). -/
def pyTake (s : String) (n : Nat) : String :=
  String.mk (s.data.take n)

/-- The whitespace class of Python `str.strip()` as used on `.env` lines. -/
def isPyWs (c : Char) : Bool :=
  c == ' ' || c == '\t' || c == '\n' || c == '\r'

/-- Strip characters satisfying `p` from both ends (Python `str.strip(set)`). -/
def pyStripWith (p : Char → Bool) (s : String) : String :=
  String.mk (((s.data.dropWhile p).reverse.dropWhile p).reverse)

/-- Python `line.strip()`. -/
def pyStrip (s : String) : String := pyStripWith isPyWs s

/-- Python `s.strip('"\'')`: strip double and single quotes from both ends. -/
def pyStripQuotes (s : String) : String :=
  pyStripWith (fun c => c == '"' || c == '\'') s

/-- Python `line.split("=", 1)[1]`: everything after the first `=`
(unreachable empty result when no `=` exists; the caller guards with a
`startswith` check whose pattern contains `=`). -/
def afterFirstEq : List Char → List Char
  | [] => []
  | c :: cs => if c == '=' then cs else afterFirstEq cs

/-! ## `get_api_key` (src/download_drive_api.py lines 46-57) -/

/-- The value extracted from a matching `.env` line:
`line.split("=", 1)[1].strip().strip('"\'')`. -/
def keyLineValue (line : String) : String :=
  pyStripQuotes (pyStrip (String.mk (afterFirstEq line.data)))

/-- The `for line in f` loop of `get_api_key`: return the value of the first
line starting with `GOOGLE_API_KEY=`, else fall through to `""`. -/
def findKeyLine : List String → String
  | [] => ""
  | l :: ls =>
    if startsWithList "GOOGLE_API_KEY=".data l.data then keyLineValue l
    else findKeyLine ls

/-- The `.env`-file half of `get_api_key`: `none` models a missing file
(`ENV_FILE.exists()` false), `some lines` the file's lines. -/
def readEnvFile : Option (List String) → String
  | none => ""
  | some lines => findKeyLine lines

/-- `get_api_key()`: environment variable first (`if api_key:` — Python
truthiness, so an empty string falls through), then the `.env` file,
then `""`. -/
def get_api_key (envVar : Option String) (envFileLines : Option (List String)) : String :=
  match envVar with
  | some k => if k == "" then readEnvFile envFileLines else k
  | none => readEnvFile envFileLines

/-! ## Progress state and `load_progress` (lines 60-74) -/

/-- One value of the `failed` map: `{"path": ..., "province": ..., "error": ...}`. -/
structure FailedEntry where
  path : String
  province : String
  error : String
deriving Repr, DecidableEq

/-- One entry of the `errors` list (the structural-error log). The per-item
handler also records the enclosing folder path and a truncated `str(item)`. -/
structure ErrorEntry where
  folder_id : String
  province : String
  path : Option String
  error : String
  item : Option String
deriving Repr, DecidableEq

/-- The JSON shapes the stored `failed` field can have: the legacy list
encoding, the current map encoding, or the key missing altogether. -/
inductive FailedField where
  | flist : List String → FailedField
  | fmap : List (String × FailedEntry) → FailedField
  | absent : FailedField
deriving Repr, DecidableEq

/-- The progress record as stored on disk / returned by `load_progress`
(a Python dict, so every field may have either shape or be absent where
the code tolerates that). -/
structure StoredProgress where
  downloaded : List String
  failed : FailedField
  errors : Option (List ErrorEntry)
  last_updated : Option Nat
deriving Repr, DecidableEq

/-- `load_progress()`: `none` models `PROGRESS_FILE.exists()` false. A stored
legacy `failed` list is migrated to the empty map; everything else is
returned as read. -/
def load_progress (stored : Option StoredProgress) : StoredProgress :=
  match stored with
  | none => { downloaded := [], failed := .fmap [], errors := some [], last_updated := none }
  | some d =>
    { d with failed := match d.failed with
                       | .flist _ => .fmap []
                       | x => x }

/-! ## `download_file` (lines 77-110) -/

/-- What the outside world does on one download attempt:
`response status written` is a completed `requests.get` whose body, when the
status is 200, streams `written` bytes to the freshly opened output file;
`timeout` is a `requests.Timeout` (at request time or mid-stream);
`exc msg` is any other exception with `str(e) = msg`. -/
inductive RequestResult where
  | response (status : Nat) (written : Nat)
  | timeout
  | exc (msg : String)
deriving Repr, DecidableEq

/-- Environment of one `download_file` call: the outcome of
`output_path.parent.mkdir(...)` (`some msg` = it raised, and it runs
outside the `try`), the transfer outcome, and the pre-existing file at
`output_path` (`some n` = exists with size `n`). -/
structure DLEnv where
  mkdirErr : Option String
  request : RequestResult
  fs0 : Option Nat
deriving Repr, DecidableEq

/-- `download_file(file_id, output_path, api_key)`. First component: the
returned `(success, reason)` pair, or `Except.error msg` when an exception
escapes the function; second component: the file at `output_path`
afterwards. On a 200 response the `with open(..., "wb")` creates the file
and the streamed bytes become its content, so the post-write
existence-and-size check reduces to `written > 0`; the failure arms
`unlink(missing_ok=True)` before returning. -/
def download_file (env : DLEnv) : Except String (Bool × String) × Option Nat :=
  match env.mkdirErr with
  | some e => (.error e, env.fs0)
  | none =>
    match env.request with
    | .response status written =>
      if status == 200 then
        if written > 0 then (.ok (true, ""), some written)
        else (.ok (false, "Empty file"), none)
      else if status == 403 then (.ok (false, "Access denied"), env.fs0)
      else if status == 404 then (.ok (false, "Not found"), env.fs0)
      else if status == 429 then (.ok (false, "Rate limited"), env.fs0)
      else (.ok (false, "HTTP " ++ toString status), env.fs0)
    | .timeout => (.ok (false, "Timeout"), none)
    | .exc msg => (.ok (false, pyTake msg 50), none)

/-- True when the call returned normally (did not raise past its boundary). -/
def isOkResult : Except String (Bool × String) → Bool
  | .ok _ => true
  | .error _ => false

/-! ## The per-item loop of `process_folder` (lines 113-218)

The in-memory `progress` dict is normalized on entry (lines 123-127), so
inside the loop it has the concrete shape `Progress` below. Every
`save_progress` call snapshots the dict into the event trace, and every
actual network transfer (a `download_file` call, line 178) is recorded as a
`transfer` event, so theorems can speak about what was persisted and what
touched the network. -/

/-- The normalized in-memory progress dict inside `process_folder`. -/
structure Progress where
  downloaded : List String
  failed : List (String × FailedEntry)
  errors : List ErrorEntry
  last_updated : Option Nat
deriving Repr, DecidableEq

/-- The run counters dict `stats` built in `main` (line 344). -/
structure Stats where
  total : Nat
  downloaded : Nat
  skipped : Nat
  failed : Nat
deriving Repr, DecidableEq

/-- Observable events of a run: a `download_file` network transfer for an
id, or a `save_progress` persisting the given snapshot. -/
inductive Event where
  | transfer (id : String)
  | save (p : Progress)
deriving Repr, DecidableEq

/-- The mutable state threaded through the item loop: the local
`downloaded_ids` set (line 123), the shared `progress` dict, the shared
`stats` dict, the event trace, and a clock supplying `datetime.now()`
values for `save_progress`. -/
structure LoopState where
  downloaded_ids : List String
  progress : Progress
  stats : Stats
  events : List Event
  clock : Nat
deriving Repr, DecidableEq

/-- Python `set.add` on a set represented as a duplicate-free list. -/
def setAdd (s : List String) (x : String) : List String :=
  if s.contains x then s else s ++ [x]

/-- Python dict lookup on the `failed` association list. -/
def assocLookup (m : List (String × FailedEntry)) (k : String) : Option FailedEntry :=
  match m with
  | [] => none
  | (k2, v) :: rest => if k2 == k then some v else assocLookup rest k

/-- Python `del m[k]` (as used under an `if k in m` guard: erasing an
absent key is a no-op here, matching the guarded call site at line 187). -/
def assocErase (m : List (String × FailedEntry)) (k : String) : List (String × FailedEntry) :=
  m.filter (fun p => p.1 != k)

/-- Python `m[k] = v`: replace in place if present, else append. -/
def assocSet (m : List (String × FailedEntry)) (k : String) (v : FailedEntry) :
    List (String × FailedEntry) :=
  match m with
  | [] => [(k, v)]
  | (k2, v2) :: rest => if k2 == k then (k, v) :: rest else (k2, v2) :: assocSet rest k v

/-- `save_progress(progress)` (lines 71-74): stamp `last_updated` and persist;
the persisted snapshot is appended to the event trace. -/
def doSave (st : LoopState) : LoopState :=
  let p2 := { st.progress with last_updated := some st.clock }
  { st with progress := p2, clock := st.clock + 1, events := st.events ++ [Event.save p2] }

/-- One child item of a folder listing, as far as the item loop inspects it.
`file id name dl onDisk`: a non-folder item whose eventual `download_file`
call would return the pair `dl` and whose computed `output_path` already
exists with non-zero size exactly when `onDisk` — this folds the `DLEnv` of
that item's attempt into its observable `(success, error)` result.
`bad msg rep`: an item whose processing raises an exception with
`str(e) = msg` inside the per-item `try` (e.g. a missing `id`/`name` key),
with `str(item) = rep`. -/
inductive Item where
  | file (id : String) (name : String) (dl : Bool × String) (onDisk : Bool)
  | bad (msg : String) (rep : String)
deriving Repr, DecidableEq

/-- `str(item)` as recorded by the per-item error handler (line 214). -/
def itemRepr : Item → String
  | .file id name _ _ => "id: " ++ id ++ ", name: " ++ name
  | .bad _ rep => rep

/-- The `except Exception as item_error` handler (lines 205-218): append one
entry to `progress["errors"]`, save, bump `stats["failed"]`, continue. -/
def handleItemError (folder_id province path : String) (st : LoopState)
    (errMsg rep : String) : LoopState :=
  let st :=
    { st with progress :=
        { st.progress with errors := st.progress.errors ++
            [{ folder_id := folder_id, province := province, path := some path,
               error := errMsg, item := some (pyTake rep 200) }] } }
  let st := doSave st
  { st with stats := { st.stats with failed := st.stats.failed + 1 } }

/-- The body of `for item in items` (lines 145-218) for one item.
A `file` item follows lines 158-203; note that the
`raise Exception("Rate limited")` at line 199 is lexically inside the
per-item `try` of line 146, so it lands in `handleItemError` (line 205)
rather than escaping the loop. A `bad` item goes straight to the handler. -/
def process_item (folder_id province path : String) (st : LoopState) (it : Item) : LoopState :=
  match it with
  | .bad msg rep => handleItemError folder_id province path st msg rep
  | .file id name dl onDisk =>
    let item_path := if path == "" then name else path ++ "/" ++ name
    let st := { st with stats := { st.stats with total := st.stats.total + 1 } }
    if st.downloaded_ids.contains id then
      { st with stats := { st.stats with skipped := st.stats.skipped + 1 } }
    else if onDisk then
      let ids := setAdd st.downloaded_ids id
      let st := { st with downloaded_ids := ids,
                          progress := { st.progress with downloaded := ids } }
      let st := doSave st
      { st with stats := { st.stats with skipped := st.stats.skipped + 1 } }
    else
      let st := { st with events := st.events ++ [Event.transfer id] }
      if dl.1 then
        let ids := setAdd st.downloaded_ids id
        let st := { st with downloaded_ids := ids,
                            stats := { st.stats with downloaded := st.stats.downloaded + 1 },
                            progress := { st.progress with
                                          failed := assocErase st.progress.failed id,
                                          downloaded := ids } }
        doSave st
      else
        let st := { st with
          progress := { st.progress with
            failed := assocSet st.progress.failed id
              { path := item_path, province := province, error := dl.2 } },
          stats := { st.stats with failed := st.stats.failed + 1 } }
        if containsSub "rate" (pyLower dl.2) then
          handleItemError folder_id province path st "Rate limited" (itemRepr it)
        else
          let st := { st with progress := { st.progress with downloaded := st.downloaded_ids } }
          doSave st

/-- The whole `for item in items` loop over one page of children. -/
def process_items (folder_id province path : String) (st : LoopState) : List Item → LoopState
  | [] => st
  | it :: rest => process_items folder_id province path (process_item folder_id province path st it) rest

/-- Normalization of the loaded progress dict plus fresh-run plumbing:
`downloaded_ids = set(progress.get("downloaded", []))` (line 123) and the
defaulting of `errors` / `failed` (lines 124-127), with empty counters. -/
def initLoopState (sp : StoredProgress) (stats : Stats) : LoopState :=
  { downloaded_ids := sp.downloaded,
    progress :=
      { downloaded := sp.downloaded,
        failed := match sp.failed with
                  | .fmap m => m
                  | _ => [],
        errors := match sp.errors with
                  | some es => es
                  | none => [],
        last_updated := sp.last_updated },
    stats := stats,
    events := [],
    clock := 0 }

/-- The progress snapshots persisted during a run, in order. -/
def savedStates (evs : List Event) : List Progress :=
  evs.filterMap (fun e => match e with
    | Event.save p => some p
    | _ => none)

/-- The network transfers performed during a run, in order. -/
def transfersOf (evs : List Event) : List String :=
  evs.filterMap (fun e => match e with
    | Event.transfer i => some i
    | _ => none)

/-! ## `main` dispatch (lines 250-362) -/

/-- The parsed CLI flags relevant to dispatch. -/
structure Args where
  reset : Bool
  status : Bool
  province : Option String
  folder : Option String
deriving Repr, DecidableEq

/-- One entry of `folder_index["links"]` as read by `main` (lines 313-327). -/
structure Link where
  typ : String
  id : String
  province_th : Option String
  label : Option String
  province_en : Option String
deriving Repr, DecidableEq

/-- One element of the `folders` work list handed to `process_folder`. -/
structure FolderSpec where
  id : String
  province : String
deriving Repr, DecidableEq

/-- How `main` terminates before (or at) its download loop. `ran folders`
means dispatch reached the loop at lines 346-354 with that work list —
listing and downloading happen only beyond this point. -/
inductive MainResult where
  | didReset (hadFile : Bool)
  | showedStatus (downloadedCount : Nat) (failedCount : Option Nat) (errorsCount : Nat)
  | missingKey
  | missingIndex
  | noFolders
  | ran (folders : List FolderSpec)
deriving Repr, DecidableEq

/-- Python `a or b` for an optional string `a` (None and `""` are falsy). -/
def orStr (a : Option String) (b : String) : String :=
  match a with
  | some s => if s == "" then b else s
  | none => b

/-- The character class of `re.sub(r'[<>:"/\\|?*]', "_", name)` (line 322). -/
def isBadPathChar (c : Char) : Bool :=
  c == '<' || c == '>' || c == ':' || c == '"' || c == '/' || c == '\\' ||
  c == '|' || c == '?' || c == '*'

/-- Filesystem-safe sanitization of a province name (line 322). -/
def sanitizeName (s : String) : String :=
  String.mk (s.data.map (fun c => if isBadPathChar c then '_' else c))

/-- The folder-list construction from the index (lines 313-327): keep
`type == "folder"` links, name them by the first truthy of
`province_th`/`label`/`province_en`/`id[:20]`, sanitize, and apply the
case-insensitive `--province` substring filter. -/
def buildFolders (provinceArg : Option String) (links : List Link) : List FolderSpec :=
  links.filterMap (fun link =>
    if link.typ == "folder" then
      let name := sanitizeName
        (orStr link.province_th (orStr link.label (orStr link.province_en (pyTake link.id 20))))
      match provinceArg with
      | some p =>
        if p == "" then some { id := link.id, province := name }
        else if containsSub (pyLower p) (pyLower name) then
          some { id := link.id, province := name }
        else none
      | none => some { id := link.id, province := name }
    else none)

/-- `main()` up to the download loop. Inputs: the flags, whether the
progress file exists and its content, the credential sources, and the
folder index (`none` = `FOLDER_INDEX_FILE` missing). Order mirrors the
source: `--reset` first, then `load_progress`, then `--status`, then the
credential gate, then the folder list. -/
def mainDispatch (args : Args) (progressFileExists : Bool)
    (stored : Option StoredProgress) (envVar : Option String)
    (envFileLines : Option (List String)) (index : Option (List Link)) : MainResult :=
  if args.reset then .didReset progressFileExists
  else
    let progress := load_progress stored
    if args.status then
      .showedStatus progress.downloaded.length
        (match progress.failed with
         | .fmap m => some m.length
         | .flist _ => none
         | .absent => some 0)
        (match progress.errors with
         | some es => es.length
         | none => 0)
    else
      let api_key := get_api_key envVar envFileLines
      if api_key == "" then .missingKey
      else
        let folderArg : Option String :=
          match args.folder with
          | some f => if f == "" then none else some f
          | none => none
        let foldersRes : Option (List FolderSpec) :=
          match folderArg with
          | some fid => some [{ id := fid, province := orStr args.province "unknown" }]
          | none =>
            match index with
            | none => none
            | some links => some (buildFolders args.province links)
        match foldersRes with
        | none => .missingIndex
        | some folders => if folders.isEmpty then .noFolders else .ran folders

/-! ## Concrete inputs used to settle the claims -/

/-- An empty starting state for a fresh run. -/
def freshState : LoopState :=
  initLoopState (load_progress none) { total := 0, downloaded := 0, skipped := 0, failed := 0 }

/-- Two queued targets: `A` whose download attempt is rate limited (HTTP 429,
so `download_file` returns `(False, "Rate limited")`), then `B` whose
download succeeds. -/
def c1Items : List Item :=
  [Item.file "A" "a.pdf" (false, "Rate limited") false,
   Item.file "B" "b.pdf" (true, "") false]

/-- The run of the item loop over `c1Items` from an empty state. -/
def c1Run : LoopState := process_items "F" "prov" "" freshState c1Items

/-- A failed entry left by an earlier run for id `Y`. -/
def c2Entry : FailedEntry := { path := "Y.pdf", province := "P1", error := "Access denied" }

/-- State at the start of a later run: `Y` is recorded in `failed`, not in
`downloaded`, and (this run) `Y`'s output path exists on disk with
non-zero size. -/
def c2Init : LoopState :=
  { downloaded_ids := [],
    progress := { downloaded := [], failed := [("Y", c2Entry)], errors := [], last_updated := none },
    stats := { total := 0, downloaded := 0, skipped := 0, failed := 0 },
    events := [],
    clock := 0 }

/-- Processing `Y` in that state takes the exists-on-disk skip path
(lines 169-174). -/
def c2Run : LoopState := process_item "F1" "P1" "" c2Init (Item.file "Y" "Y.pdf" (true, "") true)

/-- A `download_file` environment in which `output_path.parent.mkdir(...)`
(line 79, outside the `try`) raises `PermissionError` with this message. -/
def c3Env : DLEnv := { mkdirErr := some "Permission denied", request := .timeout, fs0 := none }

/-- A `download_file` environment answering HTTP 403. -/
def c6Env403 : DLEnv := { mkdirErr := none, request := .response 403 5, fs0 := some 1 }

/-- An exception message longer than the 50-character truncation bound. -/
def longMsg : String :=
  "Connection reset by peer on a very long message exceeding fifty characters"

/-- A `download_file` environment whose transfer raises a generic exception
with a long message. -/
def c6EnvExc : DLEnv := { mkdirErr := none, request := .exc longMsg, fs0 := none }

/-- A stored progress record in the legacy shape: `failed` is a list. -/
def c7Legacy : StoredProgress :=
  { downloaded := ["a"], failed := .flist [], errors := some [], last_updated := some 5 }

/-! ## Helper lemmas -/

/-- Adding an id to the `downloaded_ids` set makes it a member. -/
theorem setAdd_contains_self (s : List String) (x : String) :
    (setAdd s x).contains x = true := by
  unfold setAdd
  by_cases h : s.contains x = true
  · rw [if_pos h]; exact h
  · rw [if_neg h]; simp

/-- Membership form of `setAdd_contains_self`. -/
theorem mem_setAdd_self (s : List String) (x : String) : x ∈ setAdd s x := by
  unfold setAdd
  by_cases h : s.contains x = true
  · rw [if_pos h]; simpa using h
  · rw [if_neg h]; simp

/-- After `del m[k]`, a lookup of `k` misses. -/
theorem assocLookup_assocErase (m : List (String × FailedEntry)) (k : String) :
    assocLookup (assocErase m k) k = none := by
  induction m with
  | nil => rfl
  | cons p rest ih =>
    by_cases h : p.1 = k
    · simpa [assocErase, assocLookup, h] using ih
    · simpa [assocErase, assocLookup, h] using ih

/-! ## Claim theorems -/

/-- Claim C1, refuted on the code (code_bug): with two queued targets where
the first download attempt comes back rate limited, the run does NOT halt —
the `raise Exception("Rate limited")` of line 199 is caught by the per-item
handler at line 205, which logs it into `errors`, bumps `stats["failed"]` a
second time, and continues, so target `B` is still transferred and
downloaded after `A`'s rate-limited outcome. -/
theorem rate_limited_download_does_not_halt_run :
    transfersOf c1Run.events = ["A", "B"]
    ∧ c1Run.stats =
        { total := 2, downloaded := 1, skipped := 0, failed := 2 }
    ∧ c1Run.progress.downloaded = ["B"]
    ∧ c1Run.progress.errors.length = 1 := by
  refine ⟨by decide, by decide, by decide, by decide⟩

/-- Claim C2, counterexample: starting a run with `Y` recorded in `failed`
and `Y`'s output file already on disk with non-zero size, the exists-on-disk
skip path (lines 169-174) adds `Y` to `downloaded` and saves without
removing the `failed` entry, so the persisted snapshot holds `Y` in both. -/
theorem disk_skip_breaks_xor_invariant :
    (savedStates c2Run.events).any
      (fun p => p.downloaded.contains "Y" && (assocLookup p.failed "Y").isSome) = true := by
  decide

/-- Claim C2, amended: the download-success path (lines 180-203) does
enforce the XOR invariant for the id it marks — after its save the id is in
`downloaded`, its `failed` entry (if any) is deleted, and the persisted
snapshot is exactly the final in-memory state; only the disk-skip path can
leave an id in both sets. -/
theorem success_marking_removes_failed_entry
    (fid prov path st : _) (id name err : String)
    (h : st.downloaded_ids.contains id = false) :
    (process_item fid prov path st (Item.file id name (true, err) false)).progress.downloaded.contains id = true
    ∧ assocLookup (process_item fid prov path st (Item.file id name (true, err) false)).progress.failed id = none
    ∧ (process_item fid prov path st (Item.file id name (true, err) false)).events =
        st.events ++ [Event.transfer id,
          Event.save (process_item fid prov path st (Item.file id name (true, err) false)).progress] := by
  have h2 : id ∉ st.downloaded_ids := by simpa using h
  refine ⟨?_, ?_, ?_⟩ <;>
    simp [process_item, doSave, h2, mem_setAdd_self, assocLookup_assocErase]

/-- Witness for the amended C2 theorem at a concrete input: a fresh state
whose `failed` map holds `Y`, then a successful download of `Y`. -/
theorem success_marking_removes_failed_entry_witness :
    (process_item "F1" "P1" "" c2Init (Item.file "Y" "Y.pdf" (true, "") false)).progress.downloaded.contains "Y" = true
    ∧ assocLookup (process_item "F1" "P1" "" c2Init (Item.file "Y" "Y.pdf" (true, "") false)).progress.failed "Y" = none := by
  have h := success_marking_removes_failed_entry "F1" "P1" "" c2Init "Y" "Y.pdf" "" (by decide)
  exact ⟨h.1, h.2.1⟩

/-- Claim C3, counterexample: when `output_path.parent.mkdir(...)` (line 79,
executed before the `try` block) raises, `download_file` raises past its
boundary instead of returning a `(False, reason)` outcome. -/
theorem mkdir_failure_escapes_download_file :
    isOkResult (download_file c3Env).1 = false := by
  decide

/-- Claim C3, amended: once the parent-directory preparation of line 79 has
succeeded, `download_file` never raises past its boundary — every transfer,
writing, timeout or generic-exception outcome is returned as a
`(success, reason)` pair. -/
theorem download_file_no_raise_after_mkdir
    (env : DLEnv) (h : env.mkdirErr = none) :
    isOkResult (download_file env).1 = true := by
  rcases env with ⟨me, req, f0⟩
  simp only at h
  subst h
  cases req with
  | response s w =>
    simp only [download_file]
    split_ifs <;> rfl
  | timeout => rfl
  | exc m => rfl

/-- Witness for the amended C3 theorem at a concrete environment. -/
theorem download_file_no_raise_after_mkdir_witness :
    isOkResult (download_file { mkdirErr := none, request := .exc "boom", fs0 := some 3 }).1 = true :=
  download_file_no_raise_after_mkdir { mkdirErr := none, request := .exc "boom", fs0 := some 3 } rfl

/-- Claim C4: on a timeout, on any exception during the transfer, and on an
empty written output, `download_file` removes the output file
(`unlink(missing_ok=True)`) before reporting the failure, so afterwards no
file at all — in particular no non-empty truncated one — exists at the
destination path. -/
theorem failed_attempt_leaves_no_partial_file
    (env : DLEnv) (msg : String) (h : env.mkdirErr = none) :
    (env.request = .timeout →
       download_file env = (.ok (false, "Timeout"), none))
    ∧ (env.request = .exc msg →
       download_file env = (.ok (false, pyTake msg 50), none))
    ∧ (env.request = .response 200 0 →
       download_file env = (.ok (false, "Empty file"), none)) := by
  refine ⟨?_, ?_, ?_⟩ <;> intro hr <;> simp [download_file, h, hr]

/-- Witness for C4 at concrete environments: a mid-transfer timeout and an
empty 200-response both leave the destination path absent. -/
theorem failed_attempt_leaves_no_partial_file_witness :
    download_file { mkdirErr := none, request := .timeout, fs0 := some 7 } =
      (.ok (false, "Timeout"), none)
    ∧ download_file { mkdirErr := none, request := .response 200 0, fs0 := none } =
      (.ok (false, "Empty file"), none) :=
  ⟨(failed_attempt_leaves_no_partial_file
      { mkdirErr := none, request := .timeout, fs0 := some 7 } "x" rfl).1 rfl,
   (failed_attempt_leaves_no_partial_file
      { mkdirErr := none, request := .response 200 0, fs0 := none } "x" rfl).2.2 rfl⟩

/-- Claim C5: a target whose computed output path already exists with
non-zero size — even one absent from the progress store — is handled by
lines 169-174: no network transfer happens, the skipped counter goes up by
one, the id is marked downloaded, and the updated state is saved. -/
theorem on_disk_target_skipped_without_transfer
    (fid prov path : String) (st : LoopState) (id name : String) (dl : Bool × String)
    (h : st.downloaded_ids.contains id = false) :
    (process_item fid prov path st (Item.file id name dl true)).stats.skipped
        = st.stats.skipped + 1
    ∧ (process_item fid prov path st (Item.file id name dl true)).stats.downloaded
        = st.stats.downloaded
    ∧ (process_item fid prov path st (Item.file id name dl true)).downloaded_ids.contains id
        = true
    ∧ (process_item fid prov path st (Item.file id name dl true)).progress.downloaded
        = setAdd st.downloaded_ids id
    ∧ transfersOf (process_item fid prov path st (Item.file id name dl true)).events
        = transfersOf st.events
    ∧ (process_item fid prov path st (Item.file id name dl true)).events =
        st.events ++
          [Event.save (process_item fid prov path st (Item.file id name dl true)).progress] := by
  have h2 : id ∉ st.downloaded_ids := by simpa using h
  refine ⟨?_, ?_, ?_, ?_, ?_, ?_⟩ <;>
    simp [process_item, doSave, h2, mem_setAdd_self, transfersOf]

/-- Witness for C5: a fresh run in which `A`'s file is already on disk. -/
theorem on_disk_target_skipped_without_transfer_witness :
    (process_item "F" "P" "" freshState (Item.file "A" "a.pdf" (false, "ignored") true)).stats.skipped = 1
    ∧ transfersOf (process_item "F" "P" "" freshState (Item.file "A" "a.pdf" (false, "ignored") true)).events = [] := by
  have h := on_disk_target_skipped_without_transfer "F" "P" "" freshState "A" "a.pdf"
    (false, "ignored") (by decide)
  exact ⟨h.1, h.2.2.2.2.1⟩

/-- Claim C6: `download_file` maps transport failures to coarse reasons —
HTTP 403 to `"Access denied"`, 404 to `"Not found"`, 429 to the
distinguished `"Rate limited"`, a request timeout to `"Timeout"`, and any
other exception to its message truncated to 50 characters. -/
theorem failure_reason_classification
    (env : DLEnv) (w : Nat) (msg : String) (h : env.mkdirErr = none) :
    (env.request = .response 403 w → (download_file env).1 = .ok (false, "Access denied"))
    ∧ (env.request = .response 404 w → (download_file env).1 = .ok (false, "Not found"))
    ∧ (env.request = .response 429 w → (download_file env).1 = .ok (false, "Rate limited"))
    ∧ (env.request = .timeout → (download_file env).1 = .ok (false, "Timeout"))
    ∧ (env.request = .exc msg → (download_file env).1 = .ok (false, pyTake msg 50)) := by
  rcases env with ⟨me, req, f0⟩
  simp only at h
  subst h
  refine ⟨?_, ?_, ?_, ?_, ?_⟩ <;> intro hr <;> subst hr <;> rfl

/-- Witness for C6: a 403 response and a long exception message. -/
theorem failure_reason_classification_witness :
    (download_file c6Env403).1 = .ok (false, "Access denied")
    ∧ (download_file c6EnvExc).1
      = .ok (false, "Connection reset by peer on a very long message ex") := by
  constructor
  · exact (failure_reason_classification c6Env403 5 "m" rfl).1 rfl
  · have h := (failure_reason_classification c6EnvExc 0 longMsg rfl).2.2.2.2 rfl
    rw [h]
    rfl

/-- Claim C7: with no durable state, `load_progress` returns the zero-value
state (empty downloaded list, empty failed map, empty errors list), and a
stored legacy `failed` list is migrated to the empty map without error. -/
theorem load_progress_zero_value_and_legacy_migration :
    load_progress none =
      { downloaded := [], failed := .fmap [], errors := some [], last_updated := none }
    ∧ ∀ (d : StoredProgress) (l : List String),
        d.failed = .flist l → (load_progress (some d)).failed = .fmap [] := by
  refine ⟨rfl, ?_⟩
  intro d l h
  simp [load_progress, h]

/-- Witness for C7: a stored state whose `failed` field is an empty list. -/
theorem load_progress_zero_value_and_legacy_migration_witness :
    (load_progress (some c7Legacy)).failed = .fmap [] :=
  load_progress_zero_value_and_legacy_migration.2 c7Legacy [] rfl

/-- Claim C8: with no credential available, `run`-mode dispatch stops at the
credential gate before building any folder list (no listing or download is
reached), while `--reset` and `--status` complete regardless of the
credential sources. -/
theorem missing_credential_gates_run_but_not_status_reset
    (args : Args) (pf : Bool) (stored : Option StoredProgress)
    (ev : Option String) (ef : Option (List String)) (idx : Option (List Link)) :
    (args.reset = false → args.status = false → get_api_key ev ef = "" →
       mainDispatch args pf stored ev ef idx = .missingKey)
    ∧ (args.reset = true → mainDispatch args pf stored ev ef idx = .didReset pf)
    ∧ (args.reset = false → args.status = true →
       mainDispatch args pf stored ev ef idx =
         .showedStatus (load_progress stored).downloaded.length
           (match (load_progress stored).failed with
            | .fmap m => some m.length
            | .flist _ => none
            | .absent => some 0)
           (match (load_progress stored).errors with
            | some es => es.length
            | none => 0)) := by
  refine ⟨?_, ?_, ?_⟩
  · intro h1 h2 h3
    simp [mainDispatch, h1, h2, h3]
  · intro h1
    simp [mainDispatch, h1]
  · intro h1 h2
    simp [mainDispatch, h1, h2]

/-- Witness for C8: empty credential sources in all three modes. -/
theorem missing_credential_gates_run_but_not_status_reset_witness :
    mainDispatch { reset := false, status := false, province := none, folder := none }
      true none none none none = .missingKey
    ∧ mainDispatch { reset := true, status := false, province := none, folder := none }
      true none none none none = .didReset true
    ∧ mainDispatch { reset := false, status := true, province := none, folder := none }
      false none none none none = .showedStatus 0 (some 0) 0 := by
  refine ⟨?_, ?_, ?_⟩
  · exact (missing_credential_gates_run_but_not_status_reset _ _ _ _ _ _).1 rfl rfl rfl
  · exact (missing_credential_gates_run_but_not_status_reset _ _ _ _ _ _).2.1 rfl
  · exact (missing_credential_gates_run_but_not_status_reset _ _ _ _ _ _).2.2 rfl rfl

/-- Claim C9: the per-item exception handler (lines 205-218) appends exactly
one entry to the errors log, increments the aggregate failed counter by
exactly one, persists the state, and the loop continues with the remaining
items — so structural errors are counted into `stats["failed"]`. -/
theorem item_error_handler_logs_saves_and_continues
    (fid prov path : String) (st : LoopState) (msg rep : String) (rest : List Item) :
    (process_item fid prov path st (Item.bad msg rep)).progress.errors.length
        = st.progress.errors.length + 1
    ∧ (process_item fid prov path st (Item.bad msg rep)).stats.failed = st.stats.failed + 1
    ∧ (process_item fid prov path st (Item.bad msg rep)).stats.total = st.stats.total
    ∧ (process_item fid prov path st (Item.bad msg rep)).events =
        st.events ++ [Event.save (process_item fid prov path st (Item.bad msg rep)).progress]
    ∧ process_items fid prov path st (Item.bad msg rep :: rest) =
        process_items fid prov path (process_item fid prov path st (Item.bad msg rep)) rest := by
  refine ⟨?_, ?_, ?_, ?_, rfl⟩ <;> simp [process_item, handleItemError, doSave]

/-- Claim C10: credential lookup precedence — a set, non-empty environment
variable wins and the settings file is never read; otherwise the value of
the first `GOOGLE_API_KEY=` line of the file (whitespace- and
quote-stripped, per `keyLineValue`) is returned; otherwise the result is
the empty string. -/
theorem api_key_lookup_precedence :
    (∀ (k : String) (f : Option (List String)), k ≠ "" → get_api_key (some k) f = k)
    ∧ (∀ f, get_api_key none f = readEnvFile f)
    ∧ (∀ f, get_api_key (some "") f = readEnvFile f)
    ∧ readEnvFile none = ""
    ∧ (∀ (pre : List String) (l : String) (post : List String),
        (∀ l2 ∈ pre, startsWithList "GOOGLE_API_KEY=".data l2.data = false) →
        startsWithList "GOOGLE_API_KEY=".data l.data = true →
        readEnvFile (some (pre ++ l :: post)) = keyLineValue l)
    ∧ (∀ lines, (∀ l2 ∈ lines, startsWithList "GOOGLE_API_KEY=".data l2.data = false) →
        readEnvFile (some lines) = "") := by
  refine ⟨?_, fun _ => rfl, fun _ => rfl, rfl, ?_, ?_⟩
  · intro k f hk
    simp [get_api_key, hk]
  · intro pre l post
    induction pre with
    | nil =>
      intro _ hl
      simp [readEnvFile, findKeyLine, hl]
    | cons a as ih =>
      intro hpre hl
      have ha := hpre a (List.mem_cons_self a as)
      have hrest := ih (fun l2 hl2 => hpre l2 (List.mem_cons_of_mem a hl2)) hl
      simpa [readEnvFile, findKeyLine, ha] using hrest
  · intro lines
    induction lines with
    | nil => intro _; rfl
    | cons a as ih =>
      intro hall
      have ha := hall a (List.mem_cons_self a as)
      have hrest := ih (fun l2 hl2 => hall l2 (List.mem_cons_of_mem a hl2))
      simpa [readEnvFile, findKeyLine, ha] using hrest

/-- Witness for C10: the environment variable wins over a populated file;
with no variable, the first matching file line is stripped of whitespace
and quotes. -/
theorem api_key_lookup_precedence_witness :
    get_api_key (some "ABC") (some ["GOOGLE_API_KEY= \"xyz\" "]) = "ABC"
    ∧ readEnvFile (some ["# comment", "GOOGLE_API_KEY= \"xyz\" "]) = "xyz" := by
  constructor
  · exact api_key_lookup_precedence.1 "ABC" _ (by decide)
  · have h := api_key_lookup_precedence.2.2.2.2.1 ["# comment"]
      "GOOGLE_API_KEY= \"xyz\" " [] (by decide) (by decide)
    have h2 : readEnvFile (some ["# comment", "GOOGLE_API_KEY= \"xyz\" "])
        = keyLineValue "GOOGLE_API_KEY= \"xyz\" " := by simpa using h
    rw [h2]
    decide

end DriveFetch
